import Mathlib

/-!
Verification of the gpsService Android application (src/src/lib.rs).

The program is a single-file Slint + JNI application: `android_main` builds a
window with one string property `gps-text`, spawns one worker thread running
`get_gps_coordinates`, and writes the formatted outcome into the window through
a weak handle.  `get_gps_coordinates` performs a fixed linear sequence of
platform (JNI) calls, short-circuiting to an error string at each check.

Shallow embedding choices:
- Every cross-runtime (JNI) interaction is an oracle field of `Platform`: an
  `Except String _` whose `error` case is the lower-level interop failure
  message that the Rust `?` operator would propagate as a boxed error.
- `f64` coordinates are modelled as `ℚ` (the code never computes with them;
  they only pass through unmodified and are formatted to 4 decimal places).
- `get_gps_coordinates` returns, together with its result, the ordered trace
  of platform calls it performed, so short-circuiting is provable.
-/

namespace GpsService

/-- One platform (JNI / ndk-context) call performed by `get_gps_coordinates`,
with its string argument where the source passes one. -/
inductive Call where
  | androidContext : Call
  | fromRaw : Call
  | attachCurrentThread : Call
  | newString : String → Call
  | checkSelfPermission : String → Call
  | getSystemService : String → Call
  | isProviderEnabled : String → Call
  | getLastKnownLocation : String → Call
  | getLatitude : Call
  | getLongitude : Call
deriving DecidableEq, Repr

/-- Oracle for the platform: the outcome of each cross-runtime interaction the
source can perform, in source order.  `Except.error m` models a `jni::Error`
(or similar) whose display message is `m`, propagated by `?`.  `Option Unit`
models a Java object reference that may be null (`none`). -/
structure Platform where
  vmNull : Bool
  envNull : Bool
  fromRawRes : Except String Unit
  attachRes : Except String Unit
  newStrPermRes : Except String Unit
  checkPermRes : Except String Int
  newStrLocRes : Except String Unit
  getServiceRes : Except String (Option Unit)
  newStrProvRes : Except String Unit
  isEnabledRes : Except String Bool
  newStrGpsRes : Except String Unit
  getLastLocRes : Except String (Option Unit)
  getLatRes : Except String ℚ
  getLonRes : Except String ℚ

/-- "Contexto Android não disponível" — context-unavailable reason (lib.rs:85). -/
def ctxMsg : String := "Contexto Android não disponível"

/-- "Permissão de localização não concedida" — permission reason (lib.rs:105). -/
def permMsg : String := "Permissão de localização não concedida"

/-- "Serviço de localização não disponível" — service reason (lib.rs:120). -/
def serviceMsg : String := "Serviço de localização não disponível"

/-- "Provedor GPS está desativado" — provider-disabled reason (lib.rs:137). -/
def providerMsg : String := "Provedor GPS está desativado"

/-- "Nenhuma localização conhecida disponível" — no-location reason (lib.rs:152). -/
def noLocMsg : String := "Nenhuma localização conhecida disponível"

/-- The permission string checked (lib.rs:94). -/
def permName : String := "android.permission.ACCESS_FINE_LOCATION"

/-- The full ordered sequence of platform calls `get_gps_coordinates` performs
when no check fails and no interop call errors (lib.rs:78-165). -/
def fullCalls : List Call :=
  [Call.androidContext, Call.fromRaw, Call.attachCurrentThread,
   Call.newString permName, Call.checkSelfPermission permName,
   Call.newString "location", Call.getSystemService "location",
   Call.newString "gps", Call.isProviderEnabled "gps",
   Call.newString "gps", Call.getLastKnownLocation "gps",
   Call.getLatitude, Call.getLongitude]

/-- Embedding of `get_gps_coordinates` (lib.rs:78-165): the result the Rust
function returns, paired with the ordered trace of platform calls performed.
Each `match` mirrors one `?`-propagated interop call; each `if` mirrors one of
the source's explicit checks, in source order. -/
def get_gps_coordinates (p : Platform) : Except String (ℚ × ℚ) × List Call :=
  -- let ctx = android_context(); null-pointer check on vm and context
  if p.vmNull || p.envNull then
    (Except.error ctxMsg, fullCalls.take 1)
  else
    match p.fromRawRes with
    | Except.error e => (Except.error e, fullCalls.take 2)
    | Except.ok _ =>
      match p.attachRes with
      | Except.error e => (Except.error e, fullCalls.take 3)
      | Except.ok _ =>
        match p.newStrPermRes with
        | Except.error e => (Except.error e, fullCalls.take 4)
        | Except.ok _ =>
          match p.checkPermRes with
          | Except.error e => (Except.error e, fullCalls.take 5)
          | Except.ok has_permission =>
            if has_permission ≠ 0 then -- PERMISSION_GRANTED = 0
              (Except.error permMsg, fullCalls.take 5)
            else
              match p.newStrLocRes with
              | Except.error e => (Except.error e, fullCalls.take 6)
              | Except.ok _ =>
                match p.getServiceRes with
                | Except.error e => (Except.error e, fullCalls.take 7)
                | Except.ok none => (Except.error serviceMsg, fullCalls.take 7)
                | Except.ok (some _) =>
                  match p.newStrProvRes with
                  | Except.error e => (Except.error e, fullCalls.take 8)
                  | Except.ok _ =>
                    match p.isEnabledRes with
                    | Except.error e => (Except.error e, fullCalls.take 9)
                    | Except.ok false => (Except.error providerMsg, fullCalls.take 9)
                    | Except.ok true =>
                      match p.newStrGpsRes with
                      | Except.error e => (Except.error e, fullCalls.take 10)
                      | Except.ok _ =>
                        match p.getLastLocRes with
                        | Except.error e => (Except.error e, fullCalls.take 11)
                        | Except.ok none => (Except.error noLocMsg, fullCalls.take 11)
                        | Except.ok (some _) =>
                          match p.getLatRes with
                          | Except.error e => (Except.error e, fullCalls.take 12)
                          | Except.ok latitude =>
                            match p.getLonRes with
                            | Except.error e => (Except.error e, fullCalls.take 13)
                            | Except.ok longitude =>
                              (Except.ok (latitude, longitude), fullCalls)

/-- Decimal digit character for `n % 10`. -/
def dig (n : ℕ) : Char := Char.ofNat (48 + n % 10)

/-- Four zero-padded decimal digits of `n` (for `n < 10000`), as printed by
Rust's `format!` with a `.4` precision for the fractional part. -/
def frac4 (n : ℕ) : String :=
  String.mk [dig (n / 1000), dig (n / 100), dig (n / 10), dig n]

/-- `a / d` rounded to the nearest natural, ties to even (for `d > 0`) — the
rounding Rust's float formatting applies to the exact decimal expansion. -/
def rndHalfEvenDiv (a d : ℕ) : ℕ :=
  let f := a / d
  let r := a % d
  if 2 * r < d then f
  else if d < 2 * r then f + 1
  else if f % 2 = 0 then f else f + 1

/-- `format!` of a coordinate with `.4` precision: sign of the value, then its
magnitude scaled by 10000 and rounded half-to-even, split into integer part, a
dot, and exactly four fractional digits. -/
def fmt4 (q : ℚ) : String :=
  let sign := if q.num < 0 then "-" else ""
  let scaled := rndHalfEvenDiv (q.num.natAbs * 10000) q.den
  sign ++ Nat.repr (scaled / 10000) ++ "." ++ frac4 (scaled % 10000)

/-- The display text the worker computes from the fetch outcome
(lib.rs:50 and lib.rs:61): `format!("Latitude: \x7b:.4\x7d, Longitude: \x7b:.4\x7d", lat, lon)`
on success, `format!("Erro: \x7b\x7d", e)` on failure. -/
def displayText : Except String (ℚ × ℚ) → String
  | Except.ok (lat, lon) => "Latitude: " ++ fmt4 lat ++ ", Longitude: " ++ fmt4 lon
  | Except.error e => "Erro: " ++ e

/-- The Slint `MainWindow` (lib.rs:13-25): one string property `gps-text`. -/
structure MainWindow where
  gps_text : String
deriving DecidableEq, Repr

/-- The generated property setter `set_gps_text`: replaces the value of the
`gps-text` property. -/
def set_gps_text (_w : MainWindow) (s : String) : MainWindow := ⟨s⟩

/-- The body of the worker thread (lib.rs:44-73) after `get_gps_coordinates`
returns: formats the outcome, upgrades the weak window handle, and writes the
text if the window is still alive.  `weak = none` models
`window_weak.upgrade()` failing because the window was destroyed.  Returns the
window state after the run together with the list of property writes performed
(in order). -/
def worker_run (weak : Option MainWindow) (r : Except String (ℚ × ℚ)) :
    Option MainWindow × List String :=
  match r with
  | Except.ok (lat, lon) =>
    let text := "Latitude: " ++ fmt4 lat ++ ", Longitude: " ++ fmt4 lon
    match weak with
    | some window => (some (set_gps_text window text), [text])
    | none => (none, [])
  | Except.error e =>
    let error_text := "Erro: " ++ e
    match weak with
    | some window => (some (set_gps_text window error_text), [error_text])
    | none => (none, [])

/-- The five fixed reason strings of the source's own checks. -/
def fixedReasons : List String := [ctxMsg, permMsg, serviceMsg, providerMsg, noLocMsg]

/-- True when a call outcome, if it is an interop error, carries a message
distinct from all five fixed reason strings (as real `jni::Error` messages are). -/
def errNotFixed {α : Type} : Except String α → Bool
  | Except.error m => !(fixedReasons.contains m)
  | Except.ok _ => true

/-- Every interop error message the platform can produce is distinct from the
five fixed reason strings (as is the case for real `jni::Error` displays). -/
def interopClean (p : Platform) : Prop :=
  errNotFixed p.fromRawRes = true ∧ errNotFixed p.attachRes = true ∧
  errNotFixed p.newStrPermRes = true ∧ errNotFixed p.checkPermRes = true ∧
  errNotFixed p.newStrLocRes = true ∧ errNotFixed p.getServiceRes = true ∧
  errNotFixed p.newStrProvRes = true ∧ errNotFixed p.isEnabledRes = true ∧
  errNotFixed p.newStrGpsRes = true ∧ errNotFixed p.getLastLocRes = true ∧
  errNotFixed p.getLatRes = true ∧ errNotFixed p.getLonRes = true

/- Concrete platforms (fields in declaration order: vmNull, envNull, fromRawRes,
attachRes, newStrPermRes, checkPermRes, newStrLocRes, getServiceRes,
newStrProvRes, isEnabledRes, newStrGpsRes, getLastLocRes, getLatRes, getLonRes). -/

/-- A platform on which every check passes; last fix is (-23.55, -46.63). -/
def pAllOk : Platform :=
  ⟨false, false, Except.ok (), Except.ok (), Except.ok (), Except.ok 0, Except.ok (),
   Except.ok (some ()), Except.ok (), Except.ok true, Except.ok (), Except.ok (some ()),
   Except.ok (mkRat (-2355) 100), Except.ok (mkRat (-4663) 100)⟩

/-- A platform whose VM pointer is null: context unavailable. -/
def pCtxNull : Platform :=
  ⟨true, false, Except.ok (), Except.ok (), Except.ok (), Except.ok 0, Except.ok (),
   Except.ok (some ()), Except.ok (), Except.ok true, Except.ok (), Except.ok (some ()),
   Except.ok 0, Except.ok 0⟩

/-- A platform on which `checkSelfPermission` returns -1 (PERMISSION_DENIED). -/
def pPermDenied : Platform :=
  ⟨false, false, Except.ok (), Except.ok (), Except.ok (), Except.ok (-1), Except.ok (),
   Except.ok (some ()), Except.ok (), Except.ok true, Except.ok (), Except.ok (some ()),
   Except.ok 0, Except.ok 0⟩

/-- A platform on which `getSystemService("location")` returns null. -/
def pNoService : Platform :=
  ⟨false, false, Except.ok (), Except.ok (), Except.ok (), Except.ok 0, Except.ok (),
   Except.ok none, Except.ok (), Except.ok true, Except.ok (), Except.ok (some ()),
   Except.ok 0, Except.ok 0⟩

/-- A platform on which the GPS provider is disabled. -/
def pProviderOff : Platform :=
  ⟨false, false, Except.ok (), Except.ok (), Except.ok (), Except.ok 0, Except.ok (),
   Except.ok (some ()), Except.ok (), Except.ok false, Except.ok (), Except.ok (some ()),
   Except.ok 0, Except.ok 0⟩

/-- A platform on which `getLastKnownLocation("gps")` returns null. -/
def pNoLocation : Platform :=
  ⟨false, false, Except.ok (), Except.ok (), Except.ok (), Except.ok 0, Except.ok (),
   Except.ok (some ()), Except.ok (), Except.ok true, Except.ok (), Except.ok none,
   Except.ok 0, Except.ok 0⟩

/-- A platform on which the `checkSelfPermission` interop call itself fails
(e.g. a malformed call signature). -/
def pInteropPerm : Platform :=
  ⟨false, false, Except.ok (), Except.ok (), Except.ok (),
   Except.error "JNI call failed: method not found", Except.ok (),
   Except.ok (some ()), Except.ok (), Except.ok true, Except.ok (), Except.ok (some ()),
   Except.ok 0, Except.ok 0⟩

/-- A platform on which the `getLatitude` interop call fails. -/
def pInteropLat : Platform :=
  ⟨false, false, Except.ok (), Except.ok (), Except.ok (), Except.ok 0, Except.ok (),
   Except.ok (some ()), Except.ok (), Except.ok true, Except.ok (), Except.ok (some ()),
   Except.error "JNI call failed: wrong return type", Except.ok 0⟩

/-! ## Helper lemmas -/

/-- `dig` always yields a decimal digit character. -/
lemma dig_isDigit (k : ℕ) : (dig k).isDigit = true := by
  unfold dig
  have h : k % 10 < 10 := Nat.mod_lt _ (by norm_num)
  generalize hm : k % 10 = m at h ⊢
  interval_cases m <;> decide

/-- Whatever the platform does, the trace of calls performed is an initial
segment of the full call sequence: calls happen in the fixed source order. -/
lemma trace_take_fullCalls (p : Platform) :
    ∃ rest, (get_gps_coordinates p).2 ++ rest = fullCalls := by
  unfold get_gps_coordinates
  repeat' split
  all_goals
    first
      | exact ⟨_, List.take_append_drop _ _⟩
      | exact ⟨[], List.append_nil _⟩

/-! ## Claims -/

/-- C3: for every outcome of the worker, if the window has already been
destroyed when the worker applies the result (the weak handle upgrades to
nothing), the UI update is a silent no-op: the worker performs no property
write and leaves no window state, on both the success and the failure path,
and `worker_run` is a total function (no exception, no crash). -/
theorem worker_destroyed_update_noop (r : Except String (ℚ × ℚ)) :
    worker_run none r = (none, []) := by
  cases r with
  | ok v => cases v; rfl
  | error e => rfl

/-- C5: the display-text conversion maps `Success(lat, lon)` to
`"Latitude: <lat>, Longitude: <lon>"` with each coordinate formatted to
exactly four decimal places — on the claim's example, `Success(-23.55, -46.63)`
yields `"Latitude: -23.5500, Longitude: -46.6300"` — and maps `Failure(r)` to
`"Erro: "` followed by `r`; in general the formatted coordinate always ends in
a dot followed by exactly four decimal digits. -/
theorem displayText_formatting :
    displayText (Except.ok (mkRat (-2355) 100, mkRat (-4663) 100)) =
      "Latitude: -23.5500, Longitude: -46.6300"
  ∧ displayText (Except.error "provider disabled") = "Erro: provider disabled"
  ∧ (∀ lat lon : ℚ, displayText (Except.ok (lat, lon)) =
      "Latitude: " ++ fmt4 lat ++ ", Longitude: " ++ fmt4 lon)
  ∧ (∀ r : String, displayText (Except.error r) = "Erro: " ++ r)
  ∧ (∀ q : ℚ, ∃ pre post : String, fmt4 q = pre ++ "." ++ post ∧
      post.length = 4 ∧ post.data.all Char.isDigit = true) := by
  refine ⟨rfl, rfl, fun lat lon => rfl, fun r => rfl, fun q => ?_⟩
  refine ⟨(if q.num < 0 then "-" else "") ++
      Nat.repr (rndHalfEvenDiv (q.num.natAbs * 10000) q.den / 10000),
    frac4 (rndHalfEvenDiv (q.num.natAbs * 10000) q.den % 10000), rfl, rfl, ?_⟩
  simp [frac4, List.all, dig_isDigit]

/-- C8: setting the window's bound string property is idempotent — for every
string `s` and every window state, setting `gps-text` to `s` twice leaves the
window in the same state as setting it once. -/
theorem set_gps_text_idempotent (w : MainWindow) (s : String) :
    set_gps_text (set_gps_text w s) s = set_gps_text w s := rfl

/-- C10: in every run of the worker the `gps-text` property is written at most
once: no write when the window is gone, and exactly one write — the display
text of the outcome, success or error, never both — when the window is alive. -/
theorem worker_writes_at_most_once (weak : Option MainWindow)
    (r : Except String (ℚ × ℚ)) :
    ((worker_run weak r).2).length ≤ 1
  ∧ (worker_run none r).2 = []
  ∧ (∀ w : MainWindow, (worker_run (some w) r).2 = [displayText r]) := by
  refine ⟨?_, ?_, fun w => ?_⟩
  · cases r with
    | ok v => cases v; cases weak <;> simp [worker_run]
    | error e => cases weak <;> simp [worker_run]
  · cases r with
    | ok v => cases v; rfl
    | error e => rfl
  · cases r with
    | ok v => cases v; rfl
    | error e => rfl

/-- C1: `get_gps_coordinates` performs its checks in exactly the source order —
context, permission, location service, provider enabled, last known location,
then reading latitude and longitude — its call trace is always an initial
segment of the fixed ordered call sequence, and on every failing check it
returns `Failure` at that check with the trace cut exactly there, so no
further platform call is performed after the first failing check. -/
theorem get_gps_coordinates_check_order (p : Platform) :
    (∃ rest, (get_gps_coordinates p).2 ++ rest = fullCalls)
  ∧ ((p.vmNull || p.envNull) = true →
      get_gps_coordinates p = (Except.error ctxMsg, fullCalls.take 1))
  ∧ (∀ n : ℤ, (p.vmNull || p.envNull) = false → p.fromRawRes = Except.ok () →
      p.attachRes = Except.ok () → p.newStrPermRes = Except.ok () →
      p.checkPermRes = Except.ok n → n ≠ 0 →
      get_gps_coordinates p = (Except.error permMsg, fullCalls.take 5))
  ∧ ((p.vmNull || p.envNull) = false → p.fromRawRes = Except.ok () →
      p.attachRes = Except.ok () → p.newStrPermRes = Except.ok () →
      p.checkPermRes = Except.ok 0 → p.newStrLocRes = Except.ok () →
      p.getServiceRes = Except.ok none →
      get_gps_coordinates p = (Except.error serviceMsg, fullCalls.take 7))
  ∧ ((p.vmNull || p.envNull) = false → p.fromRawRes = Except.ok () →
      p.attachRes = Except.ok () → p.newStrPermRes = Except.ok () →
      p.checkPermRes = Except.ok 0 → p.newStrLocRes = Except.ok () →
      p.getServiceRes = Except.ok (some ()) → p.newStrProvRes = Except.ok () →
      p.isEnabledRes = Except.ok false →
      get_gps_coordinates p = (Except.error providerMsg, fullCalls.take 9))
  ∧ ((p.vmNull || p.envNull) = false → p.fromRawRes = Except.ok () →
      p.attachRes = Except.ok () → p.newStrPermRes = Except.ok () →
      p.checkPermRes = Except.ok 0 → p.newStrLocRes = Except.ok () →
      p.getServiceRes = Except.ok (some ()) → p.newStrProvRes = Except.ok () →
      p.isEnabledRes = Except.ok true → p.newStrGpsRes = Except.ok () →
      p.getLastLocRes = Except.ok none →
      get_gps_coordinates p = (Except.error noLocMsg, fullCalls.take 11)) := by
  refine ⟨trace_take_fullCalls p, ?_, ?_, ?_, ?_, ?_⟩
  · intro h0
    unfold get_gps_coordinates
    simp [h0]
  · intro n h0 h1 h2 h3 h4 hn
    unfold get_gps_coordinates
    simp [h0, h1, h2, h3, h4, hn]
  · intro h0 h1 h2 h3 h4 h5 h6
    unfold get_gps_coordinates
    simp [h0, h1, h2, h3, h4, h5, h6]
  · intro h0 h1 h2 h3 h4 h5 h6 h7 h8
    unfold get_gps_coordinates
    simp [h0, h1, h2, h3, h4, h5, h6, h7, h8]
  · intro h0 h1 h2 h3 h4 h5 h6 h7 h8 h9 h10
    unfold get_gps_coordinates
    simp [h0, h1, h2, h3, h4, h5, h6, h7, h8, h9, h10]

/-- Witness for C1: on concrete platforms each of the five failing checks
yields exactly the corresponding failure and the trace stops at that check. -/
theorem get_gps_coordinates_check_order_witness :
    get_gps_coordinates pCtxNull = (Except.error ctxMsg, fullCalls.take 1)
  ∧ get_gps_coordinates pPermDenied = (Except.error permMsg, fullCalls.take 5)
  ∧ get_gps_coordinates pNoService = (Except.error serviceMsg, fullCalls.take 7)
  ∧ get_gps_coordinates pProviderOff = (Except.error providerMsg, fullCalls.take 9)
  ∧ get_gps_coordinates pNoLocation = (Except.error noLocMsg, fullCalls.take 11) :=
  ⟨(get_gps_coordinates_check_order pCtxNull).2.1 rfl,
   (get_gps_coordinates_check_order pPermDenied).2.2.1 (-1) rfl rfl rfl rfl rfl (by decide),
   (get_gps_coordinates_check_order pNoService).2.2.2.1 rfl rfl rfl rfl rfl rfl rfl,
   (get_gps_coordinates_check_order pProviderOff).2.2.2.2.1 rfl rfl rfl rfl rfl rfl rfl rfl rfl,
   (get_gps_coordinates_check_order pNoLocation).2.2.2.2.2 rfl rfl rfl rfl rfl rfl rfl rfl rfl rfl rfl⟩

/-- C7: provider enablement and the last-known-location request are only ever
made for the provider named "gps": any `isProviderEnabled` or
`getLastKnownLocation` call in any run's trace carries the argument "gps",
so no network, fused, or other provider is ever queried. -/
theorem get_gps_coordinates_queries_gps_only (p : Platform) (s : String) :
    (Call.isProviderEnabled s ∈ (get_gps_coordinates p).2 → s = "gps")
  ∧ (Call.getLastKnownLocation s ∈ (get_gps_coordinates p).2 → s = "gps") := by
  obtain ⟨rest, hrest⟩ := trace_take_fullCalls p
  constructor <;> intro hmem
  · have hfull : Call.isProviderEnabled s ∈ fullCalls := by
      rw [← hrest]
      exact List.mem_append_left _ hmem
    simpa [fullCalls] using hfull
  · have hfull : Call.getLastKnownLocation s ∈ fullCalls := by
      rw [← hrest]
      exact List.mem_append_left _ hmem
    simpa [fullCalls] using hfull

/-- Witness for C7: on the all-checks-pass platform the provider-enabled call
for "gps" is in the trace and the theorem applies to it. -/
theorem get_gps_coordinates_queries_gps_only_witness :
    Call.isProviderEnabled "gps" ∈ (get_gps_coordinates pAllOk).2 ∧ "gps" = "gps" :=
  have hmem : Call.isProviderEnabled "gps" ∈ (get_gps_coordinates pAllOk).2 := by decide
  ⟨hmem, (get_gps_coordinates_queries_gps_only pAllOk "gps").1 hmem⟩

/-- C4: when every check passes and the platform returns a location,
`get_gps_coordinates` returns success carrying exactly the values the
platform's `getLatitude` and `getLongitude` calls produced, unmodified. -/
theorem get_gps_coordinates_returns_raw_fix (p : Platform) (lat lon : ℚ)
    (h0 : (p.vmNull || p.envNull) = false) (h1 : p.fromRawRes = Except.ok ())
    (h2 : p.attachRes = Except.ok ()) (h3 : p.newStrPermRes = Except.ok ())
    (h4 : p.checkPermRes = Except.ok 0) (h5 : p.newStrLocRes = Except.ok ())
    (h6 : p.getServiceRes = Except.ok (some ())) (h7 : p.newStrProvRes = Except.ok ())
    (h8 : p.isEnabledRes = Except.ok true) (h9 : p.newStrGpsRes = Except.ok ())
    (h10 : p.getLastLocRes = Except.ok (some ())) (h11 : p.getLatRes = Except.ok lat)
    (h12 : p.getLonRes = Except.ok lon) :
    get_gps_coordinates p = (Except.ok (lat, lon), fullCalls) := by
  unfold get_gps_coordinates
  simp [h0, h1, h2, h3, h4, h5, h6, h7, h8, h9, h10, h11, h12]

/-- Witness for C4: on the all-checks-pass platform the result is success with
the platform's raw fix (-23.55, -46.63). -/
theorem get_gps_coordinates_returns_raw_fix_witness :
    get_gps_coordinates pAllOk =
      (Except.ok (mkRat (-2355) 100, mkRat (-4663) 100), fullCalls) :=
  get_gps_coordinates_returns_raw_fix pAllOk (mkRat (-2355) 100) (mkRat (-4663) 100)
    rfl rfl rfl rfl rfl rfl rfl rfl rfl rfl rfl rfl rfl

/-- C2 counterexample: the claim's fixed set of reason strings is wrong — on a
platform with a null context the reason returned is the source's literal
string "Contexto Android não disponível", which is not in the claimed set
of English strings. -/
theorem reason_string_not_in_claimed_set :
    (get_gps_coordinates pCtxNull).1 = Except.error "Contexto Android não disponível"
  ∧ "Contexto Android não disponível" ∉
      (["context unavailable", "permission not granted", "service unavailable",
        "provider disabled", "no known location"] : List String) :=
  ⟨rfl, by decide⟩

/-- C2 (amended): for every failure condition, `get_gps_coordinates` returns
`Failure` carrying the exact corresponding reason string from the fixed set
"Contexto Android não disponível", "Permissão de localização não concedida",
"Serviço de localização não disponível", "Provedor GPS está desativado",
"Nenhuma localização conhecida disponível" — one fixed string per failing
check. -/
theorem get_gps_coordinates_fixed_reason_strings (p : Platform) :
    ((p.vmNull || p.envNull) = true →
      (get_gps_coordinates p).1 = Except.error "Contexto Android não disponível")
  ∧ (∀ n : ℤ, (p.vmNull || p.envNull) = false → p.fromRawRes = Except.ok () →
      p.attachRes = Except.ok () → p.newStrPermRes = Except.ok () →
      p.checkPermRes = Except.ok n → n ≠ 0 →
      (get_gps_coordinates p).1 = Except.error "Permissão de localização não concedida")
  ∧ ((p.vmNull || p.envNull) = false → p.fromRawRes = Except.ok () →
      p.attachRes = Except.ok () → p.newStrPermRes = Except.ok () →
      p.checkPermRes = Except.ok 0 → p.newStrLocRes = Except.ok () →
      p.getServiceRes = Except.ok none →
      (get_gps_coordinates p).1 = Except.error "Serviço de localização não disponível")
  ∧ ((p.vmNull || p.envNull) = false → p.fromRawRes = Except.ok () →
      p.attachRes = Except.ok () → p.newStrPermRes = Except.ok () →
      p.checkPermRes = Except.ok 0 → p.newStrLocRes = Except.ok () →
      p.getServiceRes = Except.ok (some ()) → p.newStrProvRes = Except.ok () →
      p.isEnabledRes = Except.ok false →
      (get_gps_coordinates p).1 = Except.error "Provedor GPS está desativado")
  ∧ ((p.vmNull || p.envNull) = false → p.fromRawRes = Except.ok () →
      p.attachRes = Except.ok () → p.newStrPermRes = Except.ok () →
      p.checkPermRes = Except.ok 0 → p.newStrLocRes = Except.ok () →
      p.getServiceRes = Except.ok (some ()) → p.newStrProvRes = Except.ok () →
      p.isEnabledRes = Except.ok true → p.newStrGpsRes = Except.ok () →
      p.getLastLocRes = Except.ok none →
      (get_gps_coordinates p).1 =
        Except.error "Nenhuma localização conhecida disponível") := by
  refine ⟨?_, ?_, ?_, ?_, ?_⟩
  · intro h0
    unfold get_gps_coordinates
    simp [h0, ctxMsg]
  · intro n h0 h1 h2 h3 h4 hn
    unfold get_gps_coordinates
    simp [h0, h1, h2, h3, h4, hn, permMsg]
  · intro h0 h1 h2 h3 h4 h5 h6
    unfold get_gps_coordinates
    simp [h0, h1, h2, h3, h4, h5, h6, serviceMsg]
  · intro h0 h1 h2 h3 h4 h5 h6 h7 h8
    unfold get_gps_coordinates
    simp [h0, h1, h2, h3, h4, h5, h6, h7, h8, providerMsg]
  · intro h0 h1 h2 h3 h4 h5 h6 h7 h8 h9 h10
    unfold get_gps_coordinates
    simp [h0, h1, h2, h3, h4, h5, h6, h7, h8, h9, h10, noLocMsg]

/-- Witness for the amended C2: on concrete platforms each of the five failing
checks yields exactly the corresponding Portuguese reason string. -/
theorem get_gps_coordinates_fixed_reason_strings_witness :
    (get_gps_coordinates pCtxNull).1 = Except.error "Contexto Android não disponível"
  ∧ (get_gps_coordinates pPermDenied).1 =
      Except.error "Permissão de localização não concedida"
  ∧ (get_gps_coordinates pNoService).1 =
      Except.error "Serviço de localização não disponível"
  ∧ (get_gps_coordinates pProviderOff).1 = Except.error "Provedor GPS está desativado"
  ∧ (get_gps_coordinates pNoLocation).1 =
      Except.error "Nenhuma localização conhecida disponível" :=
  ⟨(get_gps_coordinates_fixed_reason_strings pCtxNull).1 rfl,
   (get_gps_coordinates_fixed_reason_strings pPermDenied).2.1 (-1)
     rfl rfl rfl rfl rfl (by decide),
   (get_gps_coordinates_fixed_reason_strings pNoService).2.2.1
     rfl rfl rfl rfl rfl rfl rfl,
   (get_gps_coordinates_fixed_reason_strings pProviderOff).2.2.2.1
     rfl rfl rfl rfl rfl rfl rfl rfl rfl,
   (get_gps_coordinates_fixed_reason_strings pNoLocation).2.2.2.2
     rfl rfl rfl rfl rfl rfl rfl rfl rfl rfl rfl⟩

/-- C6: when any of the cross-runtime interop calls inside
`get_gps_coordinates` fails with a lower-level error message `m` (for
example a malformed call signature), the function returns `Failure` whose
reason is exactly that propagated message `m` — it is not replaced by one of
the five fixed reason strings and the function does not crash (it is total
and returns normally). -/
theorem get_gps_coordinates_interop_propagates (p : Platform) (m : String) :
    ((p.vmNull || p.envNull) = false → p.fromRawRes = Except.error m →
      (get_gps_coordinates p).1 = Except.error m)
  ∧ ((p.vmNull || p.envNull) = false → p.fromRawRes = Except.ok () →
      p.attachRes = Except.error m → (get_gps_coordinates p).1 = Except.error m)
  ∧ ((p.vmNull || p.envNull) = false → p.fromRawRes = Except.ok () →
      p.attachRes = Except.ok () → p.newStrPermRes = Except.error m →
      (get_gps_coordinates p).1 = Except.error m)
  ∧ ((p.vmNull || p.envNull) = false → p.fromRawRes = Except.ok () →
      p.attachRes = Except.ok () → p.newStrPermRes = Except.ok () →
      p.checkPermRes = Except.error m → (get_gps_coordinates p).1 = Except.error m)
  ∧ ((p.vmNull || p.envNull) = false → p.fromRawRes = Except.ok () →
      p.attachRes = Except.ok () → p.newStrPermRes = Except.ok () →
      p.checkPermRes = Except.ok 0 → p.newStrLocRes = Except.error m →
      (get_gps_coordinates p).1 = Except.error m)
  ∧ ((p.vmNull || p.envNull) = false → p.fromRawRes = Except.ok () →
      p.attachRes = Except.ok () → p.newStrPermRes = Except.ok () →
      p.checkPermRes = Except.ok 0 → p.newStrLocRes = Except.ok () →
      p.getServiceRes = Except.error m → (get_gps_coordinates p).1 = Except.error m)
  ∧ ((p.vmNull || p.envNull) = false → p.fromRawRes = Except.ok () →
      p.attachRes = Except.ok () → p.newStrPermRes = Except.ok () →
      p.checkPermRes = Except.ok 0 → p.newStrLocRes = Except.ok () →
      p.getServiceRes = Except.ok (some ()) → p.newStrProvRes = Except.error m →
      (get_gps_coordinates p).1 = Except.error m)
  ∧ ((p.vmNull || p.envNull) = false → p.fromRawRes = Except.ok () →
      p.attachRes = Except.ok () → p.newStrPermRes = Except.ok () →
      p.checkPermRes = Except.ok 0 → p.newStrLocRes = Except.ok () →
      p.getServiceRes = Except.ok (some ()) → p.newStrProvRes = Except.ok () →
      p.isEnabledRes = Except.error m → (get_gps_coordinates p).1 = Except.error m)
  ∧ ((p.vmNull || p.envNull) = false → p.fromRawRes = Except.ok () →
      p.attachRes = Except.ok () → p.newStrPermRes = Except.ok () →
      p.checkPermRes = Except.ok 0 → p.newStrLocRes = Except.ok () →
      p.getServiceRes = Except.ok (some ()) → p.newStrProvRes = Except.ok () →
      p.isEnabledRes = Except.ok true → p.newStrGpsRes = Except.error m →
      (get_gps_coordinates p).1 = Except.error m)
  ∧ ((p.vmNull || p.envNull) = false → p.fromRawRes = Except.ok () →
      p.attachRes = Except.ok () → p.newStrPermRes = Except.ok () →
      p.checkPermRes = Except.ok 0 → p.newStrLocRes = Except.ok () →
      p.getServiceRes = Except.ok (some ()) → p.newStrProvRes = Except.ok () →
      p.isEnabledRes = Except.ok true → p.newStrGpsRes = Except.ok () →
      p.getLastLocRes = Except.error m → (get_gps_coordinates p).1 = Except.error m)
  ∧ ((p.vmNull || p.envNull) = false → p.fromRawRes = Except.ok () →
      p.attachRes = Except.ok () → p.newStrPermRes = Except.ok () →
      p.checkPermRes = Except.ok 0 → p.newStrLocRes = Except.ok () →
      p.getServiceRes = Except.ok (some ()) → p.newStrProvRes = Except.ok () →
      p.isEnabledRes = Except.ok true → p.newStrGpsRes = Except.ok () →
      p.getLastLocRes = Except.ok (some ()) → p.getLatRes = Except.error m →
      (get_gps_coordinates p).1 = Except.error m)
  ∧ (∀ lat : ℚ, (p.vmNull || p.envNull) = false → p.fromRawRes = Except.ok () →
      p.attachRes = Except.ok () → p.newStrPermRes = Except.ok () →
      p.checkPermRes = Except.ok 0 → p.newStrLocRes = Except.ok () →
      p.getServiceRes = Except.ok (some ()) → p.newStrProvRes = Except.ok () →
      p.isEnabledRes = Except.ok true → p.newStrGpsRes = Except.ok () →
      p.getLastLocRes = Except.ok (some ()) → p.getLatRes = Except.ok lat →
      p.getLonRes = Except.error m →
      (get_gps_coordinates p).1 = Except.error m) := by
  refine ⟨?_, ?_, ?_, ?_, ?_, ?_, ?_, ?_, ?_, ?_, ?_, ?_⟩
  all_goals
    intros
    unfold get_gps_coordinates
    simp [*]

/-- Witness for C6: on a platform whose permission call itself fails and on a
platform whose latitude call fails, the lower-level message is propagated. -/
theorem get_gps_coordinates_interop_propagates_witness :
    (get_gps_coordinates pInteropPerm).1 =
      Except.error "JNI call failed: method not found"
  ∧ (get_gps_coordinates pInteropLat).1 =
      Except.error "JNI call failed: wrong return type" :=
  ⟨(get_gps_coordinates_interop_propagates pInteropPerm
      "JNI call failed: method not found").2.2.2.1 rfl rfl rfl rfl rfl,
   (get_gps_coordinates_interop_propagates pInteropLat
      "JNI call failed: wrong return type").2.2.2.2.2.2.2.2.2.2.1
     rfl rfl rfl rfl rfl rfl rfl rfl rfl rfl rfl rfl⟩

/-- C9: the permission step treats any nonzero integer from
`checkSelfPermission` as "not granted": provided the run reaches the
permission check and interop error messages are distinct from the fixed
reason strings, `get_gps_coordinates` returns the permission failure if and
only if the returned integer differs from 0 (PERMISSION_GRANTED). -/
theorem permission_denied_iff_nonzero (p : Platform) (n : ℤ)
    (h0 : (p.vmNull || p.envNull) = false) (h1 : p.fromRawRes = Except.ok ())
    (h2 : p.attachRes = Except.ok ()) (h3 : p.newStrPermRes = Except.ok ())
    (h4 : p.checkPermRes = Except.ok n) (hclean : interopClean p) :
    (get_gps_coordinates p).1 = Except.error permMsg ↔ n ≠ 0 := by
  obtain ⟨c1, c2, c3, c4, c5, c6, c7, c8, c9, c10, c11, c12⟩ := hclean
  constructor
  · intro hres hn0
    rw [hn0] at h4
    unfold get_gps_coordinates at hres
    simp [h0, h1, h2, h3, h4] at hres
    rcases hA : p.newStrLocRes with mA | uA
    · rw [hA] at hres c5
      simp at hres
      subst hres
      exact absurd c5 (by decide)
    · rw [hA] at hres
      simp at hres
      rcases hB : p.getServiceRes with mB | oB
      · rw [hB] at hres c6
        simp at hres
        subst hres
        exact absurd c6 (by decide)
      · rw [hB] at hres
        rcases oB with _ | _
        · simp at hres
          exact absurd hres (by decide)
        · simp at hres
          rcases hC : p.newStrProvRes with mC | uC
          · rw [hC] at hres c7
            simp at hres
            subst hres
            exact absurd c7 (by decide)
          · rw [hC] at hres
            simp at hres
            rcases hD : p.isEnabledRes with mD | bD
            · rw [hD] at hres c8
              simp at hres
              subst hres
              exact absurd c8 (by decide)
            · rw [hD] at hres
              rcases bD with _ | _
              · simp at hres
                exact absurd hres (by decide)
              · simp at hres
                rcases hE : p.newStrGpsRes with mE | uE
                · rw [hE] at hres c9
                  simp at hres
                  subst hres
                  exact absurd c9 (by decide)
                · rw [hE] at hres
                  simp at hres
                  rcases hF : p.getLastLocRes with mF | oF
                  · rw [hF] at hres c10
                    simp at hres
                    subst hres
                    exact absurd c10 (by decide)
                  · rw [hF] at hres
                    rcases oF with _ | _
                    · simp at hres
                      exact absurd hres (by decide)
                    · simp at hres
                      rcases hG : p.getLatRes with mG | latG
                      · rw [hG] at hres c11
                        simp at hres
                        subst hres
                        exact absurd c11 (by decide)
                      · rw [hG] at hres
                        simp at hres
                        rcases hH : p.getLonRes with mH | lonH
                        · rw [hH] at hres c12
                          simp at hres
                          subst hres
                          exact absurd c12 (by decide)
                        · rw [hH] at hres
                          simp at hres
  · intro hn
    unfold get_gps_coordinates
    simp [h0, h1, h2, h3, h4, hn]

/-- Witness for C9: on a platform whose permission call returns -1 the
permission failure is returned, and -1 is nonzero. -/
theorem permission_denied_iff_nonzero_witness :
    (get_gps_coordinates pPermDenied).1 = Except.error permMsg ∧ (-1 : ℤ) ≠ 0 :=
  ⟨(permission_denied_iff_nonzero pPermDenied (-1) rfl rfl rfl rfl rfl
      ⟨rfl, rfl, rfl, rfl, rfl, rfl, rfl, rfl, rfl, rfl, rfl, rfl⟩).mpr (by decide),
   by decide⟩

end GpsService
